import Mathlib

/-!
# Verification of the subtyl-socket secure handshake

Shallow embedding of the TypeScript sources of `subtyl-socket`:

* `crypto-utils.ts` — `HKDF`, `SecureRandom`, `constantTimeCompare`,
  `createContextInfo`;
* `SecureProvider.ts` — the handshake initiator;
* `SecureConsumer.ts` — the handshake responder;
* `BaseEncryptionPlugin.ts` — the message envelope layer.

Node `Buffer`s are modelled as `List Nat` (one entry per byte).  Base64
encoding/decoding on the wire is the identity of this model: a wire field
holds the byte list it transports.  The external cryptographic primitives
(HMAC-SHA-256 and ECDH on P-256) are parameters, bundled in `Crypto`;
theorems that need the Diffie-Hellman agreement property take it as a
hypothesis, and witnesses instantiate the parameters with small concrete
functions.
-/

/-- Bytes of a Node `Buffer`, one `Nat` per byte. -/
abbrev Bytes := List Nat

/-- External cryptographic primitives used by the sources, kept abstract.
`hmacSha256 key msg` models `createHmac('sha256', key).update(msg).digest()`;
`ecdhPub` and `ecdhSecret` model `ecdh.getPublicKey()` (serialized
uncompressed SEC1 form, as on the wire) and `ecdh.computeSecret(peerPub)`
for a private key identified by a `Nat`. -/
structure Crypto where
  hmacSha256 : Bytes → Bytes → Bytes
  ecdhPub : Nat → Bytes
  ecdhSecret : Nat → Bytes → Bytes

/-- `Buffer.fill(0)`: overwrite every byte with zero, keeping the length. -/
def zeroize (b : Bytes) : Bytes := List.replicate b.length 0

/-- `Buffer.from(s, 'utf8')` for the ASCII labels used by the sources:
one byte per character, the character's code point. -/
def utf8Bytes (s : String) : Bytes := s.data.map (fun ch => ch.toNat)

/-- `crypto-utils.ts` `constantTimeCompare`: length check first, then a
running XOR accumulator folded over the bytes, compared with zero. -/
def constantTimeCompare (a b : Bytes) : Bool :=
  if a.length ≠ b.length then
    false
  else
    ((a.zip b).foldl (fun result p => result ||| (p.1 ^^^ p.2)) 0) == 0

/-- `crypto-utils.ts` `createContextInfo(context, version = 1)`:
`[len(context)] || utf8(context) || [version]` (the TS call sites use the
default `version = 1`, passed explicitly here; `Buffer.from([n])` keeps
`n` modulo 256). -/
def createContextInfo (context : String) (version : Nat) : Bytes :=
  let contextBuffer := utf8Bytes context
  let versionBuffer := [version % 256]
  let lengthBuffer := [contextBuffer.length % 256]
  lengthBuffer ++ contextBuffer ++ versionBuffer

/-- `HKDF.extract(salt, ikm) = HMAC(salt, ikm)`. -/
def HKDF.extract (H : Bytes → Bytes → Bytes) (salt ikm : Bytes) : Bytes :=
  H salt ikm

/-- The loop body of `HKDF.expand`: after `i` iterations returns the pair
of the current `t` (i.e. `T(i)`) and the accumulated list
`[T(1), …, T(i)]`, mirroring `t` and `result` in the TS loop. -/
def HKDF.expandLoop (H : Bytes → Bytes → Bytes) (prk info : Bytes) :
    Nat → Bytes × List Bytes
  | 0 => ([], [])
  | i + 1 =>
    let s := HKDF.expandLoop H prk info i
    let t := H prk (s.1 ++ info ++ [(i + 1) % 256])
    (t, s.2 ++ [t])

/-- `HKDF.expand(prk, info, length)`: with `hashLen = 32` (SHA-256) the
loop runs `n = Math.ceil(length / hashLen) = (length + 31) / 32` times;
reject `n > 255`; otherwise concatenate `T(1) … T(n)` and truncate to
`length` (`subarray(0, length)`). -/
def HKDF.expand (H : Bytes → Bytes → Bytes) (prk info : Bytes)
    (length : Nat) : Except String Bytes :=
  if (length + 31) / 32 > 255 then
    .error "HKDF: requested length too large"
  else
    .ok (((HKDF.expandLoop H prk info ((length + 31) / 32)).2.flatten).take
      length)

/-- `HKDF.derive(ikm, salt, info, length)`: extract then expand. -/
def HKDF.derive (H : Bytes → Bytes → Bytes) (ikm salt info : Bytes)
    (length : Nat) : Except String Bytes :=
  HKDF.expand H (HKDF.extract H salt ikm) info length

/-- The value `HKDF.derive` produces for the 32-byte requests of the key
schedule (one expand block, definitionally equal to the general code
path; see `HKDF.derive_one_block`). -/
def hkdf32 (H : Bytes → Bytes → Bytes) (ikm salt info : Bytes) : Bytes :=
  (H (H salt ikm) (info ++ [1]) ++ []).take 32

/-- Modelled from the spec: the RFC 5869 block recurrence
`T(0) = empty`, `T(i) = HMAC(PRK, T(i-1) || info || byte(i))`,
used to compare the loop of `HKDF.expand` against the specified formula. -/
def HKDF.rfcT (H : Bytes → Bytes → Bytes) (prk info : Bytes) : Nat → Bytes
  | 0 => []
  | i + 1 => H prk (HKDF.rfcT H prk info i ++ info ++ [(i + 1) % 256])

/-- Modelled from the spec: `T(1) || T(2) || … || T(n)` of RFC 5869. -/
def HKDF.rfcOkm (H : Bytes → Bytes → Bytes) (prk info : Bytes) (n : Nat) :
    Bytes :=
  ((List.range n).map (fun j => HKDF.rfcT H prk info (j + 1))).flatten

/-- `SecureRandom.bytes(length)`. The CSPRNG output `rnd` (what
`randomBytes(length)` returned, hence of length `length`) is a parameter;
the function rejects an all-zero or all-0xFF buffer. -/
def SecureRandom.bytes (_length : Nat) (rnd : Bytes) : Except String Bytes :=
  let isAllZeros := rnd.all (fun byte => byte == 0)
  let isAllOnes := rnd.all (fun byte => byte == 255)
  if isAllZeros || isAllOnes then
    .error "Insufficient entropy detected in random generation"
  else
    .ok rnd

/-- `SecureRandom.base64(length)`: `bytes(length).toString('base64')`,
with the base64 rendering `enc` kept abstract. -/
def SecureRandom.base64 (enc : Bytes → String) (length : Nat) (rnd : Bytes) :
    Except String String :=
  (SecureRandom.bytes length rnd).map enc

/-- The three 32-byte derived keys installed by `_deriveKeys` on both
peers. -/
structure DerivedKeys where
  encryptionKey : Bytes
  authenticationKey : Bytes
  confirmationKey : Bytes
  deriving Repr, DecidableEq

/-- The pair returned by `getDerivedKeys()`: the TS return object holds
exactly the `encryptionKey` and `authenticationKey` fields, and no
`confirmationKey`. -/
structure ExposedKeys where
  encryptionKey : Bytes
  authenticationKey : Bytes
  deriving Repr, DecidableEq

/-- A parsed handshake JSON message.  The TS handlers read dynamic fields
off the parsed object; every field a handler reads appears here, with the
neutral default standing for an absent field (no claim in scope depends on
an absent required field).  Binary wire fields (base64 in TS) are carried
as the bytes they encode. -/
structure Msg where
  type : String := ""
  version : Nat := 0
  sessionId : String := ""
  publicKey : Bytes := []
  providerNonce : Bytes := []
  consumerNonce : Bytes := []
  confirmationMac : Bytes := []
  supportedCiphers : List String := []
  supportedHashes : List String := []
  selectedCipher : String := ""
  selectedHash : String := ""
  deriving Repr, DecidableEq

/-- `SecureProvider.ts` `HandshakeState`. -/
structure ProviderHandshakeState where
  sessionId : String
  providerNonce : Bytes
  consumerNonce : Option Bytes := none
  sharedSecret : Option Bytes := none
  derivedKeys : Option DerivedKeys := none
  confirmed : Bool
  deriving Repr, DecidableEq

/-- A `SecureProvider` instance: its ECDH private key (abstract handle)
and its handshake state. -/
structure SecureProvider where
  priv : Nat
  handshakeState : ProviderHandshakeState
  deriving Repr, DecidableEq

/-- The result object of `SecureProvider.handleResponse`. -/
structure ProviderResult where
  type : String
  confirmed : Bool
  error : Option String := none
  confirmationMac : Option Bytes := none
  deriving Repr, DecidableEq

/-- The `SecureProvider` constructor.  `sessionId` and `providerNonce`
stand for the `SecureRandom.base64(16)` / `SecureRandom.bytes(32)` outputs
drawn there; `priv` for the generated ECDH key pair. -/
def SecureProvider.create (priv : Nat) (sessionId : String)
    (providerNonce : Bytes) : SecureProvider :=
  { priv := priv
    handshakeState :=
      { sessionId := sessionId
        providerNonce := providerNonce
        confirmed := false } }

/-- `SecureProvider.startHandshake`: the `handshake-init` message written
to the socket. -/
def SecureProvider.startHandshake (C : Crypto) (p : SecureProvider) : Msg :=
  { type := "handshake-init"
    version := 1
    sessionId := p.handshakeState.sessionId
    publicKey := C.ecdhPub p.priv
    providerNonce := p.handshakeState.providerNonce
    supportedCiphers := ["aes-256-gcm"]
    supportedHashes := ["sha256"] }

/-- `SecureProvider._deriveKeys`, acting on the handshake state: requires
`sharedSecret` and `consumerNonce`, then installs the three HKDF outputs
(salt `providerNonce || consumerNonce`, domain-separated info strings).
Returns the state with the keys installed together with the bundle. -/
def SecureProvider.deriveKeysState (C : Crypto)
    (st : ProviderHandshakeState) :
    Except String (ProviderHandshakeState × DerivedKeys) := do
  match st.sharedSecret, st.consumerNonce with
  | some sharedSecret, some consumerNonce =>
    let salt := st.providerNonce ++ consumerNonce
    let encryptionInfo := createContextInfo "SubtylSocket-Encryption" 1
    let authInfo := createContextInfo "SubtylSocket-Authentication" 1
    let confirmationInfo := createContextInfo "SubtylSocket-KeyConfirmation" 1
    let encryptionKey ← HKDF.derive C.hmacSha256 sharedSecret salt encryptionInfo 32
    let authenticationKey ← HKDF.derive C.hmacSha256 sharedSecret salt authInfo 32
    let confirmationKey ← HKDF.derive C.hmacSha256 sharedSecret salt confirmationInfo 32
    let dk : DerivedKeys :=
      { encryptionKey := encryptionKey
        authenticationKey := authenticationKey
        confirmationKey := confirmationKey }
    pure ({ st with derivedKeys := some dk }, dk)
  | _, _ => throw "Cannot derive keys without shared secret and nonces"

/-- `SecureProvider._processHandshakeResponse`: validate the session id,
store the consumer nonce, compute the shared secret, derive the keys and
produce the initiator confirmation MAC over
`providerNonce || consumerNonce || providerPub || consumerPub`. -/
def SecureProvider.processHandshakeResponse (C : Crypto)
    (p : SecureProvider) (data : Msg) :
    Except String (SecureProvider × ProviderResult) := do
  if data.sessionId ≠ p.handshakeState.sessionId then
    throw "Session ID mismatch"
  let consumerNonce := data.consumerNonce
  let consumerPublicKey := data.publicKey
  let sharedSecret := C.ecdhSecret p.priv consumerPublicKey
  let st := { p.handshakeState with
              consumerNonce := some consumerNonce
              sharedSecret := some sharedSecret }
  let (st2, dk) ← SecureProvider.deriveKeysState C st
  let confirmationData :=
    st2.providerNonce ++ consumerNonce ++ C.ecdhPub p.priv ++ consumerPublicKey
  let confirmationMac := C.hmacSha256 dk.confirmationKey confirmationData
  pure ({ p with handshakeState := st2 },
        { type := "send-confirmation"
          confirmed := false
          confirmationMac := some confirmationMac })

/-- `SecureProvider._processKeyConfirmation`: recompute the expected
responder MAC over
`consumerNonce || providerNonce || data.publicKey || providerPub`
(note: the third component comes from the message being verified), compare
in constant time, and confirm on success.  The `"TypeError"` errors model
the runtime `TypeError` raised when the non-null assertions
`consumerNonce!` / `derivedKeys!` fail. -/
def SecureProvider.processKeyConfirmation (C : Crypto)
    (p : SecureProvider) (data : Msg) :
    Except String (SecureProvider × ProviderResult) := do
  let receivedMac := data.confirmationMac
  let consumerNonce ←
    match p.handshakeState.consumerNonce with
    | some cn => pure cn
    | none => throw "TypeError"
  let confirmationData :=
    consumerNonce ++ p.handshakeState.providerNonce ++ data.publicKey ++
      C.ecdhPub p.priv
  let dk ←
    match p.handshakeState.derivedKeys with
    | some dk => pure dk
    | none => throw "TypeError"
  let expectedMac := C.hmacSha256 dk.confirmationKey confirmationData
  if constantTimeCompare receivedMac expectedMac then
    pure ({ p with handshakeState := { p.handshakeState with confirmed := true } },
          { type := "handshake-complete", confirmed := true })
  else
    throw "Key confirmation failed - potential MITM attack"

/-- `SecureProvider.handleResponse`: dispatch on the message type, with
the surrounding try/catch turning any thrown error into an `error`
result.  (A throw can only occur before any state mutation, so the
caught-error branch keeps the pre-call state, as the TS object does.) -/
def SecureProvider.handleResponse (C : Crypto) (p : SecureProvider)
    (message : Msg) : SecureProvider × ProviderResult :=
  let attempt : Except String (SecureProvider × ProviderResult) :=
    if message.type = "handshake-response" then
      SecureProvider.processHandshakeResponse C p message
    else if message.type = "key-confirmation" then
      SecureProvider.processKeyConfirmation C p message
    else
      pure (p, { type := "error", confirmed := false,
                 error := some "Unknown message type" })
  match attempt with
  | .ok r => r
  | .error e => (p, { type := "error", confirmed := false, error := some e })

/-- `SecureProvider.getDerivedKeys`: `null` unless confirmed and keys
present; otherwise the encryption/authentication pair only. -/
def SecureProvider.getDerivedKeys (p : SecureProvider) : Option ExposedKeys :=
  if ¬ p.handshakeState.confirmed then
    none
  else
    match p.handshakeState.derivedKeys with
    | none => none
    | some dk =>
      some { encryptionKey := dk.encryptionKey
             authenticationKey := dk.authenticationKey }

/-- `SecureProvider.isHandshakeConfirmed`. -/
def SecureProvider.isHandshakeConfirmed (p : SecureProvider) : Bool :=
  p.handshakeState.confirmed

/-- `SecureProvider.destroy`: zero-fill the shared secret and both nonces
in place; the derived-key buffers are zero-filled and the bundle replaced
by `undefined` (so the post-state carries `none`); `confirmed` reset. -/
def SecureProvider.destroy (p : SecureProvider) : SecureProvider :=
  let st := p.handshakeState
  { p with handshakeState :=
      { st with
        sharedSecret := st.sharedSecret.map zeroize
        derivedKeys := none
        providerNonce := zeroize st.providerNonce
        consumerNonce := st.consumerNonce.map zeroize
        confirmed := false } }

/-- `SecureConsumer.ts` `HandshakeState`. -/
structure ConsumerHandshakeState where
  sessionId : Option String := none
  providerNonce : Option Bytes := none
  consumerNonce : Bytes
  sharedSecret : Option Bytes := none
  derivedKeys : Option DerivedKeys := none
  confirmed : Bool
  providerPublicKey : Option Bytes := none
  deriving Repr, DecidableEq

/-- A `SecureConsumer` instance: its ECDH private key (abstract handle)
and its handshake state. -/
structure SecureConsumer where
  priv : Nat
  handshakeState : ConsumerHandshakeState
  deriving Repr, DecidableEq

/-- The result object of `SecureConsumer.handleMessage`. -/
structure ConsumerResult where
  type : String
  response : Option Msg := none
  confirmed : Bool
  error : Option String := none
  deriving Repr, DecidableEq

/-- The `SecureConsumer` constructor.  `consumerNonce` stands for the
`SecureRandom.bytes(32)` output drawn there; `priv` for the generated
ECDH key pair. -/
def SecureConsumer.create (priv : Nat) (consumerNonce : Bytes) :
    SecureConsumer :=
  { priv := priv
    handshakeState :=
      { consumerNonce := consumerNonce
        confirmed := false } }

/-- `SecureConsumer._deriveKeys`: same HKDF schedule as the provider,
requiring `sharedSecret` and `providerNonce`, with salt
`providerNonce || consumerNonce`. -/
def SecureConsumer.deriveKeysState (C : Crypto)
    (st : ConsumerHandshakeState) :
    Except String (ConsumerHandshakeState × DerivedKeys) := do
  match st.sharedSecret, st.providerNonce with
  | some sharedSecret, some providerNonce =>
    let salt := providerNonce ++ st.consumerNonce
    let encryptionInfo := createContextInfo "SubtylSocket-Encryption" 1
    let authInfo := createContextInfo "SubtylSocket-Authentication" 1
    let confirmationInfo := createContextInfo "SubtylSocket-KeyConfirmation" 1
    let encryptionKey ← HKDF.derive C.hmacSha256 sharedSecret salt encryptionInfo 32
    let authenticationKey ← HKDF.derive C.hmacSha256 sharedSecret salt authInfo 32
    let confirmationKey ← HKDF.derive C.hmacSha256 sharedSecret salt confirmationInfo 32
    let dk : DerivedKeys :=
      { encryptionKey := encryptionKey
        authenticationKey := authenticationKey
        confirmationKey := confirmationKey }
    pure ({ st with derivedKeys := some dk }, dk)
  | _, _ => throw "Cannot derive keys without shared secret and nonces"

/-- `SecureConsumer._processHandshakeInit`: validate version and
algorithms, store the session id, provider nonce and provider public key,
compute the shared secret, derive the keys and build the
`handshake-response` message. -/
def SecureConsumer.processHandshakeInit (C : Crypto) (c : SecureConsumer)
    (data : Msg) : Except String (SecureConsumer × ConsumerResult) := do
  if data.version ≠ 1 then
    throw "Unsupported protocol version"
  if ¬ (data.supportedCiphers.contains "aes-256-gcm" ∧
        data.supportedHashes.contains "sha256") then
    throw "Unsupported cryptographic algorithms"
  let providerNonce := data.providerNonce
  let providerPublicKey := data.publicKey
  let sharedSecret := C.ecdhSecret c.priv providerPublicKey
  let st := { c.handshakeState with
              sessionId := some data.sessionId
              providerNonce := some providerNonce
              providerPublicKey := some providerPublicKey
              sharedSecret := some sharedSecret }
  let (st2, _) ← SecureConsumer.deriveKeysState C st
  let response : Msg :=
    { type := "handshake-response"
      sessionId := data.sessionId
      publicKey := C.ecdhPub c.priv
      consumerNonce := st2.consumerNonce
      selectedCipher := "aes-256-gcm"
      selectedHash := "sha256" }
  pure ({ c with handshakeState := st2 },
        { type := "handshake-response"
          response := some response
          confirmed := false })

/-- `SecureConsumer._processKeyConfirmationRequest`: recompute the
expected initiator MAC over
`providerNonce || consumerNonce || providerPublicKey || consumerPub`
(all from locally stored state), compare in constant time; on success
produce the responder MAC over
`consumerNonce || providerNonce || consumerPub || providerPublicKey` and
mark the handshake confirmed.  `"TypeError"` models the runtime error of
a failing non-null assertion. -/
def SecureConsumer.processKeyConfirmationRequest (C : Crypto)
    (c : SecureConsumer) (data : Msg) :
    Except String (SecureConsumer × ConsumerResult) := do
  let receivedMac := data.confirmationMac
  let providerNonce ←
    match c.handshakeState.providerNonce with
    | some pn => pure pn
    | none => throw "TypeError"
  let providerPublicKey ←
    match c.handshakeState.providerPublicKey with
    | some ppk => pure ppk
    | none => throw "TypeError"
  let confirmationData :=
    providerNonce ++ c.handshakeState.consumerNonce ++ providerPublicKey ++
      C.ecdhPub c.priv
  let dk ←
    match c.handshakeState.derivedKeys with
    | some dk => pure dk
    | none => throw "TypeError"
  let expectedMac := C.hmacSha256 dk.confirmationKey confirmationData
  if ¬ constantTimeCompare receivedMac expectedMac then
    throw "Provider key confirmation failed - potential MITM attack"
  let ourConfirmationData :=
    c.handshakeState.consumerNonce ++ providerNonce ++ C.ecdhPub c.priv ++
      providerPublicKey
  let ourConfirmationMac := C.hmacSha256 dk.confirmationKey ourConfirmationData
  let response : Msg :=
    { type := "key-confirmation"
      sessionId := c.handshakeState.sessionId.getD ""
      publicKey := C.ecdhPub c.priv
      confirmationMac := ourConfirmationMac }
  pure ({ c with handshakeState := { c.handshakeState with confirmed := true } },
        { type := "key-confirmation"
          response := some response
          confirmed := true })

/-- `SecureConsumer.handleMessage`: dispatch on the message type, with the
surrounding try/catch turning any thrown error into an `error` result.
(As for the provider, every reachable throw happens before any state
mutation.) -/
def SecureConsumer.handleMessage (C : Crypto) (c : SecureConsumer)
    (raw : Msg) : SecureConsumer × ConsumerResult :=
  let attempt : Except String (SecureConsumer × ConsumerResult) :=
    if raw.type = "handshake-init" then
      SecureConsumer.processHandshakeInit C c raw
    else if raw.type = "key-confirmation-request" then
      SecureConsumer.processKeyConfirmationRequest C c raw
    else
      pure (c, { type := "error", confirmed := false,
                 error := some "Unknown message type" })
  match attempt with
  | .ok r => r
  | .error e => (c, { type := "error", confirmed := false, error := some e })

/-- `SecureConsumer.getDerivedKeys`: `null` unless confirmed and keys
present; otherwise the encryption/authentication pair only. -/
def SecureConsumer.getDerivedKeys (c : SecureConsumer) : Option ExposedKeys :=
  if ¬ c.handshakeState.confirmed then
    none
  else
    match c.handshakeState.derivedKeys with
    | none => none
    | some dk =>
      some { encryptionKey := dk.encryptionKey
             authenticationKey := dk.authenticationKey }

/-- `SecureConsumer.isHandshakeConfirmed`. -/
def SecureConsumer.isHandshakeConfirmed (c : SecureConsumer) : Bool :=
  c.handshakeState.confirmed

/-- `SecureConsumer.destroy`: zero-fill the shared secret and both nonces
in place; the derived-key buffers are zero-filled and the bundle replaced
by `undefined`; `confirmed` reset. -/
def SecureConsumer.destroy (c : SecureConsumer) : SecureConsumer :=
  let st := c.handshakeState
  { c with handshakeState :=
      { st with
        sharedSecret := st.sharedSecret.map zeroize
        derivedKeys := none
        consumerNonce := zeroize st.consumerNonce
        providerNonce := st.providerNonce.map zeroize
        confirmed := false } }

/-- The honest four-message exchange between a freshly constructed
provider and consumer, with every message delivered unmodified.  The
`key-confirmation-request` wrapper is the one the transport layer builds
around the provider's `confirmationMac` (README / tests).  Returns the
final provider, final consumer, and the intermediate results. -/
def honestRun (C : Crypto) (pPriv cPriv : Nat) (sid : String)
    (pN cN : Bytes) :
    SecureProvider × SecureConsumer ×
      (ConsumerResult × ProviderResult × ConsumerResult × ProviderResult) :=
  let p0 := SecureProvider.create pPriv sid pN
  let c0 := SecureConsumer.create cPriv cN
  let initMsg := SecureProvider.startHandshake C p0
  let s1 := SecureConsumer.handleMessage C c0 initMsg
  let respMsg := s1.2.response.getD {}
  let s2 := SecureProvider.handleResponse C p0 respMsg
  let confReq : Msg :=
    { type := "key-confirmation-request"
      confirmationMac := (s2.2.confirmationMac).getD [] }
  let s3 := SecureConsumer.handleMessage C s1.1 confReq
  let confMsg := s3.2.response.getD {}
  let s4 := SecureProvider.handleResponse C s2.1 confMsg
  (s4.1, s3.1, (s1.2, s2.2, s3.2, s4.2))

/-- `BaseEncryptionPlugin.ts` `EncryptionKeys`. -/
structure EncryptionKeys where
  encryptionKey : Bytes
  authenticationKey : Bytes
  deriving Repr, DecidableEq

/-- A parsed JSON value, restricted to the shapes
`BaseEncryptionPlugin.processIncomingMessage` inspects: a JSON string, an
object carrying the fields the code reads (`type`, `algorithm`,
`encrypted`, `payload`), or any other JSON value.  The `encrypted` field
is carried as the string token handed to `decrypt`. -/
inductive Json where
  | str (s : String)
  | obj (type algorithm : Option String) (encrypted : Option String)
        (payload : Option Json)
  | other
  deriving Repr

/-- State of a `BaseEncryptionPlugin` (the abstract `encrypt`/`decrypt`
of the concrete subclass are passed as parameters where needed). -/
structure BaseEncryptionPlugin where
  keys : Option EncryptionKeys := none
  enabled : Bool := false
  algorithmName : String
  deriving Repr, DecidableEq

/-- `BaseEncryptionPlugin.isEnabled`. -/
def BaseEncryptionPlugin.isEnabled (p : BaseEncryptionPlugin) : Bool :=
  p.enabled && p.keys.isSome

/-- What `processIncomingMessage` hands back to its caller: a parsed JSON
value, or the raw message string (the catch-all branch).  The TS method
has no error outcome at all — its try/catch converts every throw into the
raw-string return. -/
inductive ProcResult where
  | value (v : Json)
  | rawStr (s : String)
  deriving Repr

/-- `BaseEncryptionPlugin.processIncomingMessage`.  `parse` is the
`JSON.parse` oracle (`none` = parse throws); `dec` is the subclass
`decrypt` (`.error` = decrypt throws).  The enclosing try/catch turns
every throw — parse failure, the encryption-not-enabled throw, the
algorithm-mismatch throw, and every decryption failure — into returning
the raw message string.  JS truthiness of `parsed.algorithm` makes an
empty algorithm string skip the mismatch check. -/
def BaseEncryptionPlugin.processIncomingMessage
    (parse : String → Option Json) (dec : String → Except String String)
    (p : BaseEncryptionPlugin) (rawMessage : String) : ProcResult :=
  match parse rawMessage with
  | none => .rawStr rawMessage
  | some parsed =>
    match parsed with
    | .obj t a e pl =>
      if t = some "encrypted-plugin-message" ∧ e.isSome then
        match e with
        | some enc =>
          if ¬ p.isEnabled then
            .rawStr rawMessage
          else if (match a with
                   | some alg => alg != "" && alg != p.algorithmName
                   | none => false) then
            .rawStr rawMessage
          else
            match dec enc with
            | .error _ => .rawStr rawMessage
            | .ok decrypted =>
              match parse decrypted with
              | none => .rawStr rawMessage
              | some v => .value v
        | none => .value (.obj t a e pl)
      else
        .value (.obj t a e pl)
    | v => .value v

/-- `BaseEncryptionPlugin.unwrapMessage`: run `processIncomingMessage`;
if the result is an object with a truthy `type`, return
`{type, payload: processed.payload || processed}`; otherwise `null`. -/
def BaseEncryptionPlugin.unwrapMessage
    (parse : String → Option Json) (dec : String → Except String String)
    (p : BaseEncryptionPlugin) (rawMessage : String) :
    Option (String × Json) :=
  match BaseEncryptionPlugin.processIncomingMessage parse dec p rawMessage with
  | .rawStr _ => none
  | .value v =>
    match v with
    | .obj (some t) a e pl =>
      if t ≠ "" then
        some (t, (pl.getD (.obj (some t) a e pl)))
      else
        none
    | _ => none

/-- A small concrete instantiation of the external primitives, used to
evaluate the model at concrete inputs: the MAC of a message is the key
followed by the message, the public key of the scalar `n` is `[n]`, and
the shared secret adds the own scalar to the peer public bytes — making
`ecdhSecret a (ecdhPub b) = [a + b]`, symmetric in the two parties just
as ECDH is. -/
def testCrypto : Crypto :=
  { hmacSha256 := fun k m => k ++ m
    ecdhPub := fun n => [n]
    ecdhSecret := fun a pb => [a + pb.foldl (· + ·) 0] }

/-- Concrete fresh provider used for evaluating the model. -/
def fixtureP0 : SecureProvider := SecureProvider.create 1 "sid" [10]

/-- Concrete fresh consumer used for evaluating the model. -/
def fixtureC0 : SecureConsumer := SecureConsumer.create 2 [20]

/-- The `handshake-init` of `fixtureP0`. -/
def fixtureInit : Msg := SecureProvider.startHandshake testCrypto fixtureP0

/-- The consumer after processing the init, with its result. -/
def fixtureS1 : SecureConsumer × ConsumerResult :=
  SecureConsumer.handleMessage testCrypto fixtureC0 fixtureInit

/-- The honest `handshake-response` message. -/
def fixtureRespMsg : Msg := (fixtureS1.2.response).getD {}

/-- The provider after processing the response, with its result (this
provider holds derived keys and the consumer nonce). -/
def fixtureS2 : SecureProvider × ProviderResult :=
  SecureProvider.handleResponse testCrypto fixtureP0 fixtureRespMsg

/-- The honest `key-confirmation-request` wrapper around the provider's
confirmation MAC (as the transport layer builds it). -/
def fixtureConfReq : Msg :=
  { type := "key-confirmation-request"
    confirmationMac := (fixtureS2.2.confirmationMac).getD [] }

/-- The consumer after verifying the provider MAC, with its result. -/
def fixtureS3 : SecureConsumer × ConsumerResult :=
  SecureConsumer.handleMessage testCrypto fixtureS1.1 fixtureConfReq

/-- The honest `key-confirmation` message. -/
def fixtureConfMsg : Msg := (fixtureS3.2.response).getD {}

/-- The provider after the final confirmation: a fully confirmed peer. -/
def fixtureS4 : SecureProvider × ProviderResult :=
  SecureProvider.handleResponse testCrypto fixtureS2.1 fixtureConfMsg

/-- The confirmation key the fixture provider holds after processing the
handshake response. -/
def fixtureConfKey : Bytes :=
  ((fixtureS2.1.handshakeState.derivedKeys).getD
    { encryptionKey := [], authenticationKey := [],
      confirmationKey := [] }).confirmationKey

/-- A forged `key-confirmation`: its `publicKey` field differs from the
consumer public key of the fixture run, and its MAC is computed over that
forged field (as the provider's verifier will do). -/
def fixtureForgedConf : Msg :=
  { fixtureConfMsg with
    publicKey := [9]
    confirmationMac :=
      testCrypto.hmacSha256 fixtureConfKey ([20] ++ [10] ++ [9] ++ [1]) }

/-- A provider state with small literal fields, confirmed and holding
keys, for concrete evaluation. -/
def confirmedProviderFixture : SecureProvider :=
  { priv := 1
    handshakeState :=
      { sessionId := "sid"
        providerNonce := [1]
        consumerNonce := some [2]
        sharedSecret := some [3]
        derivedKeys := some { encryptionKey := [4], authenticationKey := [5],
                              confirmationKey := [6] }
        confirmed := true } }

/-- A consumer state with small literal fields, confirmed and holding
keys, for concrete evaluation. -/
def confirmedConsumerFixture : SecureConsumer :=
  { priv := 2
    handshakeState :=
      { sessionId := some "sid"
        providerNonce := some [1]
        consumerNonce := [2]
        sharedSecret := some [3]
        derivedKeys := some { encryptionKey := [4], authenticationKey := [5],
                              confirmationKey := [6] }
        confirmed := true
        providerPublicKey := some [1] } }

/-- A concrete `JSON.parse` oracle mapping the wire string `"wire"` to an
encrypted envelope whose payload token is `"ct"`. -/
def fixtureParse : String → Option Json := fun s =>
  if s = "wire" then
    some (.obj (some "encrypted-plugin-message") (some "aes-256-gcm")
      (some "ct") none)
  else
    none

/-- A concrete failing `decrypt`: every ciphertext raises the AEAD
authentication error. -/
def fixtureDecFail : String → Except String String := fun _ =>
  .error "Unsupported state or unable to authenticate data"

/-- A concrete enabled AES-256-GCM plugin with keys installed. -/
def fixturePlugin : BaseEncryptionPlugin :=
  { keys := some { encryptionKey := [1], authenticationKey := [2] }
    enabled := true
    algorithmName := "aes-256-gcm" }

/-!
## Helper lemmas
-/

/-- Zero-filling an already zero-filled buffer changes nothing. -/
theorem zeroize_idem (b : Bytes) : zeroize (zeroize b) = zeroize b := by
  simp [zeroize]

theorem zeroize_comp : zeroize ∘ zeroize = zeroize :=
  funext zeroize_idem

theorem zeroize_map_idem (o : Option Bytes) :
    (o.map zeroize).map zeroize = o.map zeroize := by
  cases o <;> simp [zeroize]

theorem constantTimeCompare_zip_self (a : Bytes) (acc : Nat) :
    (a.zip a).foldl (fun result p => result ||| (p.1 ^^^ p.2)) acc = acc := by
  induction a generalizing acc with
  | nil => rfl
  | cons x xs ih =>
    simp only [List.zip_cons_cons, List.foldl_cons, Nat.xor_self, Nat.or_zero]
    exact ih acc

/-- Comparing any buffer with itself succeeds. -/
theorem constantTimeCompare_self (a : Bytes) :
    constantTimeCompare a a = true := by
  unfold constantTimeCompare
  simp [constantTimeCompare_zip_self]

/-- Two concatenations that swap two leading blocks of equal length can
only coincide when the leading blocks coincide. -/
theorem append_swap_ne (nI nR pkI pkR : Bytes) (hlen : nI.length = nR.length)
    (hne : nI ≠ nR) :
    nI ++ nR ++ pkI ++ pkR ≠ nR ++ nI ++ pkR ++ pkI := by
  intro h
  have h' : nI ++ (nR ++ pkI ++ pkR) = nR ++ (nI ++ pkR ++ pkI) := by
    simpa [List.append_assoc] using h
  exact hne (List.append_inj h' hlen).1

/-- A 32-byte derivation always succeeds, producing the single expand
block truncated to 32 bytes. -/
theorem HKDF.derive_one_block (H : Bytes → Bytes → Bytes)
    (ikm salt info : Bytes) :
    HKDF.derive H ikm salt info 32 = .ok (hkdf32 H ikm salt info) := rfl

theorem HKDF.expandLoop_fst (H : Bytes → Bytes → Bytes) (prk info : Bytes)
    (n : Nat) :
    (HKDF.expandLoop H prk info n).1 = HKDF.rfcT H prk info n := by
  induction n with
  | zero => rfl
  | succ i ih => simp [HKDF.expandLoop, HKDF.rfcT, ih]

/-- The accumulated list of the TS expand loop is exactly the RFC 5869
block sequence `[T(1), …, T(n)]`. -/
theorem HKDF.expandLoop_snd (H : Bytes → Bytes → Bytes) (prk info : Bytes)
    (n : Nat) :
    (HKDF.expandLoop H prk info n).2
      = (List.range n).map (fun j => HKDF.rfcT H prk info (j + 1)) := by
  induction n with
  | zero => rfl
  | succ i ih =>
    simp [HKDF.expandLoop, List.range_succ, ih, HKDF.expandLoop_fst,
      HKDF.rfcT]

/-- When every HMAC output has 32 bytes, `T(1) || … || T(n)` has `32 * n`
bytes. -/
theorem HKDF.rfcOkm_length (H : Bytes → Bytes → Bytes)
    (hH : ∀ k m, (H k m).length = 32) (prk info : Bytes) (n : Nat) :
    (HKDF.rfcOkm H prk info n).length = 32 * n := by
  unfold HKDF.rfcOkm
  induction n with
  | zero => rfl
  | succ i ih =>
    rw [List.range_succ, List.map_append, List.flatten_append,
      List.length_append, ih]
    simp only [List.map_cons, List.map_nil, List.flatten_cons,
      List.flatten_nil, List.append_nil]
    rw [HKDF.rfcT, hH]
    ring

/-!
## C9 — HKDF length limit
-/

/-- C9: `HKDF.derive` raises the length-too-large error exactly when the
requested length exceeds `255 * 32 = 8160`; `L = 8161` raises it, while
`L = 8160` succeeds and returns exactly 8160 bytes — precisely the full
RFC 5869 expansion `T(1) || … || T(255)` with
`T(i) = HMAC(PRK, T(i-1) || info || byte(i))`. -/
theorem hkdf_length_limit (H : Bytes → Bytes → Bytes)
    (hH : ∀ k m, (H k m).length = 32) (ikm salt info : Bytes) :
    (∀ L, (∃ e, HKDF.derive H ikm salt info L = .error e) ↔ L > 8160)
  ∧ HKDF.derive H ikm salt info 8161
      = .error "HKDF: requested length too large"
  ∧ (∃ okm, HKDF.derive H ikm salt info 8160 = .ok okm
      ∧ okm.length = 8160
      ∧ okm = HKDF.rfcOkm H (HKDF.extract H salt ikm) info 255) := by
  have hlen255 : (HKDF.rfcOkm H (HKDF.extract H salt ikm) info 255).length
      = 8160 := by
    rw [HKDF.rfcOkm_length H hH]
  refine ⟨?_, rfl, ?_⟩
  · intro L
    constructor
    · rintro ⟨e, he⟩
      unfold HKDF.derive HKDF.expand at he
      split at he
      · omega
      · cases he
    · intro hL
      unfold HKDF.derive HKDF.expand
      split
      · exact ⟨_, rfl⟩
      · omega
  · refine ⟨HKDF.rfcOkm H (HKDF.extract H salt ikm) info 255, ?_, hlen255,
      rfl⟩
    unfold HKDF.derive HKDF.expand
    rw [if_neg (by norm_num), show (8160 + 31) / 32 = 255 by norm_num,
      HKDF.expandLoop_snd]
    rw [show ((List.range 255).map
        (fun j => HKDF.rfcT H (HKDF.extract H salt ikm) info (j + 1))).flatten
        = HKDF.rfcOkm H (HKDF.extract H salt ikm) info 255 from rfl]
    rw [← hlen255, List.take_length]

/-- Witness for C9 at a concrete 32-byte HMAC stand-in and empty
inputs. -/
theorem hkdf_length_limit_witness :
    ((∃ e, HKDF.derive (fun _ _ => List.replicate 32 0) [] [] [] 9000
        = .error e) ↔ 9000 > 8160)
  ∧ HKDF.derive (fun _ _ => List.replicate 32 0) [] [] [] 8161
      = .error "HKDF: requested length too large"
  ∧ (∃ okm, HKDF.derive (fun _ _ => List.replicate 32 0) [] [] [] 8160
        = .ok okm
      ∧ okm.length = 8160
      ∧ okm = HKDF.rfcOkm (fun _ _ => List.replicate 32 0)
          (HKDF.extract (fun _ _ => List.replicate 32 0) [] []) [] 255) := by
  have h := hkdf_length_limit (fun _ _ => List.replicate 32 0)
    (fun _ _ => by simp) [] [] []
  exact ⟨h.1 9000, h.2.1, h.2.2⟩

/-!
## C1 — key agreement on honest runs
-/

/-- C1: in every honest four-message run (all four messages delivered
unmodified between a fresh provider and a fresh consumer), the run
confirms and both peers expose byte-identical encryption keys and
byte-identical authentication keys.  The Diffie-Hellman agreement
property of the underlying ECDH primitive is the hypothesis `dh`. -/
theorem key_agreement (C : Crypto)
    (dh : ∀ a b, C.ecdhSecret a (C.ecdhPub b) = C.ecdhSecret b (C.ecdhPub a))
    (pPriv cPriv : Nat) (sid : String) (pN cN : Bytes) :
    ((honestRun C pPriv cPriv sid pN cN).2.2.2.2.2).confirmed = true
  ∧ ∃ ek ak,
      (honestRun C pPriv cPriv sid pN cN).1.getDerivedKeys
        = some { encryptionKey := ek, authenticationKey := ak }
    ∧ (honestRun C pPriv cPriv sid pN cN).2.1.getDerivedKeys
        = some { encryptionKey := ek, authenticationKey := ak } := by
  have hdh := dh cPriv pPriv
  refine ⟨?_, hkdf32 C.hmacSha256 (C.ecdhSecret pPriv (C.ecdhPub cPriv))
      (pN ++ cN) (createContextInfo "SubtylSocket-Encryption" 1),
    hkdf32 C.hmacSha256 (C.ecdhSecret pPriv (C.ecdhPub cPriv)) (pN ++ cN)
      (createContextInfo "SubtylSocket-Authentication" 1), ?_, ?_⟩ <;>
  simp only [honestRun, SecureProvider.create, SecureConsumer.create,
    SecureProvider.startHandshake, SecureConsumer.handleMessage,
    SecureConsumer.processHandshakeInit, SecureConsumer.deriveKeysState,
    SecureProvider.handleResponse, SecureProvider.processHandshakeResponse,
    SecureProvider.deriveKeysState, SecureProvider.processKeyConfirmation,
    SecureConsumer.processKeyConfirmationRequest, hdh,
    SecureProvider.getDerivedKeys, SecureConsumer.getDerivedKeys] <;>
  simp only [bind, Except.bind, pure, Except.pure, String.reduceEq, reduceIte,
    ne_eq, not_true_eq_false, not_false_eq_true, List.contains_cons,
    beq_self_eq_true, Bool.true_or, Bool.or_true, and_self,
    HKDF.derive_one_block, ite_true, ite_false, eq_self_iff_true,
    Option.getD_some, constantTimeCompare_self]

/-- Witness for C1: the fixture run with the concrete test primitives
confirms, and the peers expose the same (present) key pair. -/
theorem key_agreement_witness :
    ((honestRun testCrypto 1 2 "sid" [10] [20]).2.2.2.2.2).confirmed = true
  ∧ (honestRun testCrypto 1 2 "sid" [10] [20]).1.getDerivedKeys
      = (honestRun testCrypto 1 2 "sid" [10] [20]).2.1.getDerivedKeys
  ∧ ((honestRun testCrypto 1 2 "sid" [10] [20]).1.getDerivedKeys).isSome
      = true := by
  have h := key_agreement testCrypto
    (fun a b => by simp [testCrypto, Nat.add_comm]) 1 2 "sid" [10] [20]
  obtain ⟨hc, ek, ak, hp, hcn⟩ := h
  exact ⟨hc, by rw [hp, hcn], by rw [hp]; rfl⟩

/-!
## C3 — no `Failed` state; unexpected types only yield an error result
-/

/-- Counterexample to C3: the consumer of the honest fixture run has
already processed a `handshake-init` (its first result was a
`handshake-response`), yet feeding it the very same `handshake-init`
again is processed successfully a second time — no `Failed` state is
recorded and the repeated message is not rejected. -/
theorem unexpected_message_counterexample :
    fixtureS1.2.type = "handshake-response"
  ∧ (SecureConsumer.handleMessage testCrypto fixtureS1.1 fixtureInit).2.type
      = "handshake-response"
  ∧ (SecureConsumer.handleMessage testCrypto fixtureS1.1 fixtureInit).2.error
      = none := by
  refine ⟨rfl, rfl, rfl⟩

/-- C3 as amended: there is no `Failed` state.  A message whose type is
not one of the two recognized types produces an error result and leaves
the peer state unchanged (on either side), and a consumer — in any state,
in particular one that already processed a `handshake-init` — processes
any well-formed `handshake-init` successfully. -/
theorem unexpected_message_amended :
    (∀ (C : Crypto) (c : SecureConsumer) (m : Msg),
      m.type ≠ "handshake-init" → m.type ≠ "key-confirmation-request" →
      SecureConsumer.handleMessage C c m
        = (c, { type := "error", confirmed := false,
                error := some "Unknown message type" }))
  ∧ (∀ (C : Crypto) (p : SecureProvider) (m : Msg),
      m.type ≠ "handshake-response" → m.type ≠ "key-confirmation" →
      SecureProvider.handleResponse C p m
        = (p, { type := "error", confirmed := false,
                error := some "Unknown message type" }))
  ∧ (∀ (C : Crypto) (c : SecureConsumer) (m : Msg),
      m.type = "handshake-init" → m.version = 1 →
      m.supportedCiphers.contains "aes-256-gcm" = true →
      m.supportedHashes.contains "sha256" = true →
      ∃ c2 r, SecureConsumer.handleMessage C c m = (c2, r)
        ∧ r.type = "handshake-response" ∧ r.error = none) := by
  refine ⟨fun C c m h1 h2 => ?_, fun C p m h1 h2 => ?_,
    fun C c m h1 h2 h3 h4 => ?_⟩
  · simp only [SecureConsumer.handleMessage, if_neg h1, if_neg h2]
    rfl
  · simp only [SecureProvider.handleResponse, if_neg h1, if_neg h2]
    rfl
  · simp only [SecureConsumer.handleMessage, h1,
      SecureConsumer.processHandshakeInit, SecureConsumer.deriveKeysState,
      h2, h3, h4]
    simp only [bind, Except.bind, pure, Except.pure, String.reduceEq,
      reduceIte, ne_eq, not_true_eq_false, not_false_eq_true, and_self,
      HKDF.derive_one_block, ite_true, ite_false, eq_self_iff_true]
    exact ⟨_, _, rfl, rfl, rfl⟩

/-- Witness for C3 as amended: an unknown-type message errors on both
peers without touching the state, and the fixture consumer re-processes
the fixture `handshake-init`. -/
theorem unexpected_message_amended_witness :
    SecureConsumer.handleMessage testCrypto fixtureC0 { type := "bogus" }
      = (fixtureC0, { type := "error", confirmed := false,
                      error := some "Unknown message type" })
  ∧ SecureProvider.handleResponse testCrypto fixtureP0 { type := "bogus" }
      = (fixtureP0, { type := "error", confirmed := false,
                      error := some "Unknown message type" })
  ∧ (SecureConsumer.handleMessage testCrypto fixtureS1.1 fixtureInit).2.type
      = "handshake-response" := by
  have h := unexpected_message_amended
  refine ⟨h.1 testCrypto fixtureC0 { type := "bogus" } (by decide) (by decide),
    h.2.1 testCrypto fixtureP0 { type := "bogus" } (by decide) (by decide),
    ?_⟩
  obtain ⟨c2, r, heq, ht, _⟩ :=
    h.2.2 testCrypto fixtureS1.1 fixtureInit rfl rfl rfl rfl
  rw [heq]
  exact ht

/-!
## C4 — session-id validation only covers `handshake-response`
-/

/-- Counterexample to C4: in the honest fixture run, replaying the final
`key-confirmation` with its `sessionId` rewritten to a value different
from the provider's completes the handshake successfully — the
`key-confirmation` handler never checks the session id, so no
session-id-mismatch error is raised and no failure occurs. -/
theorem session_id_counterexample :
    ({ fixtureConfMsg with sessionId := "EVIL" } : Msg).sessionId
        ≠ fixtureS2.1.handshakeState.sessionId
  ∧ (SecureProvider.handleResponse testCrypto fixtureS2.1
        { fixtureConfMsg with sessionId := "EVIL" }).2
      = { type := "handshake-complete", confirmed := true }
  ∧ (SecureProvider.handleResponse testCrypto fixtureS2.1
        { fixtureConfMsg with sessionId := "EVIL" }).1.handshakeState.confirmed
      = true := by
  refine ⟨by decide, by decide, by decide⟩

/-- C4 as amended: a `handshake-response` whose `sessionId` differs from
the provider's fails with the session-id-mismatch error (leaving the
state unchanged, with no `Failed` marking), while the `key-confirmation`
handler never reads the message's `sessionId`: its outcome is invariant
under rewriting that field. -/
theorem session_id_amended :
    (∀ (C : Crypto) (p : SecureProvider) (m : Msg),
      m.type = "handshake-response" →
      m.sessionId ≠ p.handshakeState.sessionId →
      SecureProvider.handleResponse C p m
        = (p, { type := "error", confirmed := false,
                error := some "Session ID mismatch" }))
  ∧ (∀ (C : Crypto) (p : SecureProvider) (m : Msg) (s : String),
      m.type = "key-confirmation" →
      SecureProvider.handleResponse C p m
        = SecureProvider.handleResponse C p { m with sessionId := s }) := by
  constructor
  · intro C p m h1 h2
    simp only [SecureProvider.handleResponse, h1,
      SecureProvider.processHandshakeResponse]
    rw [if_pos h2]
    rfl
  · intro C p m s h1
    simp only [SecureProvider.handleResponse, h1,
      SecureProvider.processKeyConfirmation]
    rfl

/-- Witness for C4 as amended at the fixture run: a tampered
`handshake-response` is rejected, and the final `key-confirmation` is
insensitive to a rewritten `sessionId`. -/
theorem session_id_amended_witness :
    SecureProvider.handleResponse testCrypto fixtureP0
        { fixtureRespMsg with sessionId := "EVIL" }
      = (fixtureP0, { type := "error", confirmed := false,
                      error := some "Session ID mismatch" })
  ∧ SecureProvider.handleResponse testCrypto fixtureS2.1 fixtureConfMsg
      = SecureProvider.handleResponse testCrypto fixtureS2.1
          { fixtureConfMsg with sessionId := "EVIL" } := by
  exact ⟨(session_id_amended).1 testCrypto fixtureP0
      { fixtureRespMsg with sessionId := "EVIL" } (by decide) (by decide),
    (session_id_amended).2 testCrypto fixtureS2.1 fixtureConfMsg "EVIL"
      (by decide)⟩

/-!
## C5 — MAC verification inputs
-/

/-- Counterexample to C5: the provider never stores the consumer's public
key; its expected MAC is recomputed from the `publicKey` field of the
very `KEY_CONFIRMATION` being verified.  In one and the same provider
state, both the honest confirmation and a forged confirmation — carrying
a different `publicKey` and a different MAC computed over that forged
field — are accepted.  Were the expected MAC a function of locally stored
state only, at most one MAC value could be accepted in a fixed state. -/
theorem mac_source_counterexample :
    (SecureProvider.handleResponse testCrypto fixtureS2.1
        fixtureConfMsg).2.confirmed = true
  ∧ (SecureProvider.handleResponse testCrypto fixtureS2.1
        fixtureForgedConf).2.confirmed = true
  ∧ fixtureForgedConf.publicKey ≠ fixtureConfMsg.publicKey
  ∧ fixtureForgedConf.confirmationMac ≠ fixtureConfMsg.confirmationMac := by
  refine ⟨by decide, by decide, by decide, by decide⟩

/-- C5 as amended: the consumer recomputes its expected MAC from locally
stored state only and fails with its key-confirmation error on a
constant-time mismatch, as claimed; the provider, however, recomputes its
expected MAC using the `publicKey` field of the message being verified
(acceptance is decided by a constant-time comparison against that
message-dependent value, with the key-confirmation error on mismatch). -/
theorem mac_source_amended :
    (∀ (C : Crypto) (p : SecureProvider) (m : Msg) (cn : Bytes)
        (dk : DerivedKeys),
      m.type = "key-confirmation" →
      p.handshakeState.consumerNonce = some cn →
      p.handshakeState.derivedKeys = some dk →
      SecureProvider.handleResponse C p m
        = if constantTimeCompare m.confirmationMac
              (C.hmacSha256 dk.confirmationKey
                (cn ++ p.handshakeState.providerNonce ++ m.publicKey ++
                  C.ecdhPub p.priv)) then
            ({ p with handshakeState :=
                { p.handshakeState with confirmed := true } },
             { type := "handshake-complete", confirmed := true })
          else
            (p, { type := "error", confirmed := false,
                  error := some
                    "Key confirmation failed - potential MITM attack" }))
  ∧ (∀ (C : Crypto) (c : SecureConsumer) (m : Msg) (pn ppk : Bytes)
        (dk : DerivedKeys),
      m.type = "key-confirmation-request" →
      c.handshakeState.providerNonce = some pn →
      c.handshakeState.providerPublicKey = some ppk →
      c.handshakeState.derivedKeys = some dk →
      constantTimeCompare m.confirmationMac
          (C.hmacSha256 dk.confirmationKey
            (pn ++ c.handshakeState.consumerNonce ++ ppk ++
              C.ecdhPub c.priv)) = false →
      SecureConsumer.handleMessage C c m
        = (c, { type := "error", confirmed := false,
                error := some
                  "Provider key confirmation failed - potential MITM attack" })) := by
  constructor
  · intro C p m cn dk h1 hcn hdk
    simp only [SecureProvider.handleResponse, h1,
      SecureProvider.processKeyConfirmation, hcn, hdk]
    by_cases hc : constantTimeCompare m.confirmationMac
        (C.hmacSha256 dk.confirmationKey
          (cn ++ p.handshakeState.providerNonce ++ m.publicKey ++
            C.ecdhPub p.priv)) = true
    · rw [if_pos hc]
      simp only [bind, Except.bind, pure, Except.pure, String.reduceEq,
        reduceIte, ite_true, ite_false]
      rw [if_pos hc]
    · rw [if_neg hc]
      simp only [bind, Except.bind, pure, Except.pure, String.reduceEq,
        reduceIte, ite_true, ite_false]
      rw [if_neg hc]
  · intro C c m pn ppk dk h1 hpn hppk hdk hmis
    simp only [SecureConsumer.handleMessage, h1, String.reduceEq, reduceIte,
      ite_true, ite_false,
      SecureConsumer.processKeyConfirmationRequest, hpn, hppk, hdk,
      bind, Except.bind, pure, Except.pure]
    have hmis' : ¬ constantTimeCompare m.confirmationMac
        (C.hmacSha256 dk.confirmationKey
          (pn ++ c.handshakeState.consumerNonce ++ ppk ++
            C.ecdhPub c.priv)) = true := by
      simp only [Bool.not_eq_true]
      exact hmis
    rw [if_pos hmis']

/-- Witness for C5 as amended, at the fixture run's states: the
provider's honest final confirmation is accepted, and the consumer
rejects a zeroed-out MAC. -/
theorem mac_source_amended_witness :
    SecureProvider.handleResponse testCrypto fixtureS2.1 fixtureConfMsg
      = (if constantTimeCompare fixtureConfMsg.confirmationMac
            (testCrypto.hmacSha256 fixtureConfKey
              ([20] ++ fixtureS2.1.handshakeState.providerNonce ++
                fixtureConfMsg.publicKey ++ testCrypto.ecdhPub 1)) then
          ({ fixtureS2.1 with handshakeState :=
              { fixtureS2.1.handshakeState with confirmed := true } },
           { type := "handshake-complete", confirmed := true })
        else
          (fixtureS2.1,
           { type := "error", confirmed := false,
             error := some "Key confirmation failed - potential MITM attack" }))
  ∧ SecureConsumer.handleMessage testCrypto fixtureS1.1
        { type := "key-confirmation-request", confirmationMac := [0] }
      = (fixtureS1.1,
         { type := "error", confirmed := false,
           error := some
             "Provider key confirmation failed - potential MITM attack" }) := by
  constructor
  · exact (mac_source_amended).1 testCrypto fixtureS2.1 fixtureConfMsg [20]
      ((fixtureS2.1.handshakeState.derivedKeys).getD
        { encryptionKey := [], authenticationKey := [],
          confirmationKey := [] }) (by decide) (by decide) (by decide)
  · exact (mac_source_amended).2 testCrypto fixtureS1.1
      { type := "key-confirmation-request", confirmationMac := [0] }
      [10] [1]
      ((fixtureS1.1.handshakeState.derivedKeys).getD
        { encryptionKey := [], authenticationKey := [],
          confirmationKey := [] }) (by decide) (by decide) (by decide)
      (by decide) (by decide)

/-!
## C6 — asymmetric confirmation-MAC layouts
-/

/-- C6: in the honest run, both confirmation MACs are HMACs under the
same derived confirmation key; the initiator MAC is computed over
`providerNonce || consumerNonce || providerPub || consumerPub` and the
responder MAC over
`consumerNonce || providerNonce || consumerPub || providerPub`, with the
public keys in the same serialized form used on the wire (`C.ecdhPub`).
Whenever the two nonces differ — as in any honest transcript, both being
fresh 32-byte random values — the two MAC input buffers differ, so one
direction's MAC input can never stand for the other's. -/
theorem mac_asymmetry (C : Crypto)
    (dh : ∀ a b, C.ecdhSecret a (C.ecdhPub b) = C.ecdhSecret b (C.ecdhPub a))
    (pPriv cPriv : Nat) (sid : String) (pN cN : Bytes)
    (hlen : pN.length = cN.length) (hne : pN ≠ cN) :
    ∃ ck,
      ((honestRun C pPriv cPriv sid pN cN).2.2.2.1).confirmationMac
        = some (C.hmacSha256 ck
            (pN ++ cN ++ C.ecdhPub pPriv ++ C.ecdhPub cPriv))
    ∧ (((honestRun C pPriv cPriv sid pN cN).2.2.2.2.1.response).getD
          {}).confirmationMac
        = C.hmacSha256 ck (cN ++ pN ++ C.ecdhPub cPriv ++ C.ecdhPub pPriv)
    ∧ pN ++ cN ++ C.ecdhPub pPriv ++ C.ecdhPub cPriv
        ≠ cN ++ pN ++ C.ecdhPub cPriv ++ C.ecdhPub pPriv := by
  have hdh := dh cPriv pPriv
  refine ⟨hkdf32 C.hmacSha256 (C.ecdhSecret pPriv (C.ecdhPub cPriv))
      (pN ++ cN) (createContextInfo "SubtylSocket-KeyConfirmation" 1),
    ?_, ?_, append_swap_ne pN cN (C.ecdhPub pPriv) (C.ecdhPub cPriv)
      hlen hne⟩ <;>
  simp only [honestRun, SecureProvider.create, SecureConsumer.create,
    SecureProvider.startHandshake, SecureConsumer.handleMessage,
    SecureConsumer.processHandshakeInit, SecureConsumer.deriveKeysState,
    SecureProvider.handleResponse, SecureProvider.processHandshakeResponse,
    SecureProvider.deriveKeysState, SecureProvider.processKeyConfirmation,
    SecureConsumer.processKeyConfirmationRequest, hdh] <;>
  simp only [bind, Except.bind, pure, Except.pure, String.reduceEq, reduceIte,
    ne_eq, not_true_eq_false, not_false_eq_true, List.contains_cons,
    beq_self_eq_true, Bool.true_or, Bool.or_true, and_self,
    HKDF.derive_one_block, ite_true, ite_false, eq_self_iff_true,
    Option.getD_some, constantTimeCompare_self]

/-- Witness for C6: with the concrete test primitives and distinct
nonces, the two wire MACs of the honest run are distinct values. -/
theorem mac_asymmetry_witness :
    ((honestRun testCrypto 1 2 "sid" [10] [20]).2.2.2.1).confirmationMac
      ≠ some (Msg.confirmationMac (Option.getD
          ((honestRun testCrypto 1 2 "sid" [10] [20]).2.2.2.2.1.response)
          {})) := by
  obtain ⟨ck, hI, hR, hneq⟩ := mac_asymmetry testCrypto
    (fun a b => by simp [testCrypto, Nat.add_comm]) 1 2 "sid" [10] [20]
    rfl (by decide)
  rw [hI, hR]
  intro hcon
  exact hneq (List.append_cancel_left (Option.some.inj hcon))

/-!
## C7 — destroy zeroizes but records no `Failed` state
-/

/-- Counterexample to C7: after `destroy()` the peers still process
messages successfully — a destroyed provider accepts a fresh
`handshake-response` (its session id survives destruction) and a
destroyed consumer accepts a fresh `handshake-init`; no operation
becomes a terminal-error no-op. -/
theorem destroy_counterexample :
    (SecureProvider.handleResponse testCrypto fixtureS4.1.destroy
        { type := "handshake-response", sessionId := "sid",
          publicKey := [2], consumerNonce := [5] }).2.type
      = "send-confirmation"
  ∧ (SecureProvider.handleResponse testCrypto fixtureS4.1.destroy
        { type := "handshake-response", sessionId := "sid",
          publicKey := [2], consumerNonce := [5] }).2.error = none
  ∧ (SecureConsumer.handleMessage testCrypto fixtureS3.1.destroy
        fixtureInit).2.type = "handshake-response"
  ∧ (SecureConsumer.handleMessage testCrypto fixtureS3.1.destroy
        fixtureInit).2.error = none := by
  refine ⟨by decide, by decide, by decide, by decide⟩

/-- C7 as amended: `destroy()` overwrites both nonces and the shared
secret with zeros of the same length, zero-fills and drops the
derived-key bundle, and resets `confirmed`; calling it twice leaves the
same state.  But no `Failed` marking exists, and later messages can still
be processed (see the counterexample). -/
theorem destroy_amended :
    (∀ (p : SecureProvider),
      p.destroy.handshakeState.providerNonce
          = List.replicate p.handshakeState.providerNonce.length 0
      ∧ (∀ ss, p.handshakeState.sharedSecret = some ss →
          p.destroy.handshakeState.sharedSecret
            = some (List.replicate ss.length 0))
      ∧ (∀ cn, p.handshakeState.consumerNonce = some cn →
          p.destroy.handshakeState.consumerNonce
            = some (List.replicate cn.length 0))
      ∧ p.destroy.handshakeState.derivedKeys = none
      ∧ p.destroy.handshakeState.confirmed = false
      ∧ p.destroy.destroy = p.destroy)
  ∧ (∀ (c : SecureConsumer),
      c.destroy.handshakeState.consumerNonce
          = List.replicate c.handshakeState.consumerNonce.length 0
      ∧ (∀ ss, c.handshakeState.sharedSecret = some ss →
          c.destroy.handshakeState.sharedSecret
            = some (List.replicate ss.length 0))
      ∧ (∀ pn, c.handshakeState.providerNonce = some pn →
          c.destroy.handshakeState.providerNonce
            = some (List.replicate pn.length 0))
      ∧ c.destroy.handshakeState.derivedKeys = none
      ∧ c.destroy.handshakeState.confirmed = false
      ∧ c.destroy.destroy = c.destroy) := by
  constructor
  · intro p
    refine ⟨rfl, fun ss h => ?_, fun cn h => ?_, rfl, rfl, ?_⟩
    · simp [SecureProvider.destroy, h, zeroize]
    · simp [SecureProvider.destroy, h, zeroize]
    · simp [SecureProvider.destroy, zeroize_map_idem, zeroize_idem,
        zeroize_comp]
  · intro c
    refine ⟨rfl, fun ss h => ?_, fun pn h => ?_, rfl, rfl, ?_⟩
    · simp [SecureConsumer.destroy, h, zeroize]
    · simp [SecureConsumer.destroy, h, zeroize]
    · simp [SecureConsumer.destroy, zeroize_map_idem, zeroize_idem,
        zeroize_comp]

/-- Witness for C7 as amended, at the confirmed peers of the fixture
run. -/
theorem destroy_amended_witness :
    fixtureS4.1.destroy.handshakeState.providerNonce
        = List.replicate ([10] : Bytes).length 0
  ∧ fixtureS4.1.destroy.handshakeState.sharedSecret
        = some (List.replicate ([3] : Bytes).length 0)
  ∧ fixtureS4.1.destroy.handshakeState.consumerNonce
        = some (List.replicate ([20] : Bytes).length 0)
  ∧ fixtureS4.1.destroy.handshakeState.derivedKeys = none
  ∧ fixtureS4.1.destroy.handshakeState.confirmed = false
  ∧ fixtureS4.1.destroy.destroy = fixtureS4.1.destroy
  ∧ fixtureS3.1.destroy.destroy = fixtureS3.1.destroy := by
  have hp := destroy_amended.1 fixtureS4.1
  have hc := destroy_amended.2 fixtureS3.1
  refine ⟨?_, hp.2.1 [3] (by decide), hp.2.2.1 [20] (by decide),
    hp.2.2.2.1, hp.2.2.2.2.1, hp.2.2.2.2.2, hc.2.2.2.2.2⟩
  have h := hp.1
  rw [h]
  decide

/-!
## C8 — decryption failures are swallowed, not surfaced
-/

/-- Counterexample to C8: with an enabled plugin, a wire message that
parses to an encrypted envelope whose decryption raises an AEAD failure
makes `processIncomingMessage` return the raw message string and
`unwrapMessage` return `null` — the failure is not surfaced to the caller
as an error. -/
theorem swallowed_decrypt_counterexample :
    BaseEncryptionPlugin.processIncomingMessage fixtureParse fixtureDecFail
        fixturePlugin "wire" = .rawStr "wire"
  ∧ BaseEncryptionPlugin.unwrapMessage fixtureParse fixtureDecFail
        fixturePlugin "wire" = none := by
  exact ⟨rfl, rfl⟩

/-- C8 as amended: whenever decryption of an encrypted envelope fails,
the enclosing try/catch of `processIncomingMessage` returns the raw
message string (a non-error result), and `unwrapMessage` consequently
returns `null`.  No error reaches the caller. -/
theorem swallowed_decrypt_amended (parse : String → Option Json)
    (dec : String → Except String String) (p : BaseEncryptionPlugin)
    (raw enc err : String) (pl : Option Json)
    (hp : parse raw = some (.obj (some "encrypted-plugin-message")
        (some p.algorithmName) (some enc) pl))
    (he : p.isEnabled = true)
    (hd : dec enc = .error err) :
    BaseEncryptionPlugin.processIncomingMessage parse dec p raw
      = .rawStr raw
  ∧ BaseEncryptionPlugin.unwrapMessage parse dec p raw = none := by
  have hproc : BaseEncryptionPlugin.processIncomingMessage parse dec p raw
      = .rawStr raw := by
    unfold BaseEncryptionPlugin.processIncomingMessage
    rw [hp]
    simp [he, hd]
  refine ⟨hproc, ?_⟩
  unfold BaseEncryptionPlugin.unwrapMessage
  rw [hproc]

/-- Witness for C8 as amended at the concrete fixture plugin. -/
theorem swallowed_decrypt_amended_witness :
    BaseEncryptionPlugin.processIncomingMessage fixtureParse fixtureDecFail
        fixturePlugin "wire" = .rawStr "wire"
  ∧ BaseEncryptionPlugin.unwrapMessage fixtureParse fixtureDecFail
        fixturePlugin "wire" = none :=
  swallowed_decrypt_amended fixtureParse fixtureDecFail fixturePlugin
    "wire" "ct" "Unsupported state or unable to authenticate data" none
    rfl rfl rfl

/-!
## C10 — `SecureRandom` with length 0 always fails
-/

/-- C10: `SecureRandom.bytes(0)` (and hence `SecureRandom.base64(0)`)
throws the insufficient-entropy error for every possible CSPRNG output:
the empty buffer vacuously passes the `every`-based all-zeros check, so
the call never returns. -/
theorem secure_random_zero_always_fails (rnd : Bytes)
    (h : rnd.length = 0) (enc : Bytes → String) :
    SecureRandom.bytes 0 rnd
      = .error "Insufficient entropy detected in random generation"
  ∧ SecureRandom.base64 enc 0 rnd
      = .error "Insufficient entropy detected in random generation" := by
  have hnil : rnd = [] := List.eq_nil_of_length_eq_zero h
  subst hnil
  exact ⟨rfl, rfl⟩

/-- Witness for C10 at the only length-0 CSPRNG output, the empty
buffer. -/
theorem secure_random_zero_always_fails_witness :
    SecureRandom.bytes 0 []
      = .error "Insufficient entropy detected in random generation"
  ∧ SecureRandom.base64 (fun _ => "") 0 []
      = .error "Insufficient entropy detected in random generation" :=
  secure_random_zero_always_fails [] rfl (fun _ => "")

/-!
## C2 — pre-confirmation secrecy of the derived keys
-/

/-- C2: for every state of `SecureProvider` and `SecureConsumer` (hence a
fortiori every reachable one) with the handshake not confirmed,
`getDerivedKeys()` returns `null`; and every non-null return value is
exactly the stored encryption/authentication pair — the `ExposedKeys`
record has no confirmation-key field, so the confirmation key is never
exposed. -/
theorem pre_confirm_secrecy (p : SecureProvider) (c : SecureConsumer) :
    (p.handshakeState.confirmed = false → p.getDerivedKeys = none)
  ∧ (c.handshakeState.confirmed = false → c.getDerivedKeys = none)
  ∧ (∀ v, p.getDerivedKeys = some v →
      ∃ dk, p.handshakeState.derivedKeys = some dk ∧
        v = { encryptionKey := dk.encryptionKey
              authenticationKey := dk.authenticationKey })
  ∧ (∀ v, c.getDerivedKeys = some v →
      ∃ dk, c.handshakeState.derivedKeys = some dk ∧
        v = { encryptionKey := dk.encryptionKey
              authenticationKey := dk.authenticationKey }) := by
  refine ⟨fun h => ?_, fun h => ?_, fun v hv => ?_, fun v hv => ?_⟩
  · simp [SecureProvider.getDerivedKeys, h]
  · simp [SecureConsumer.getDerivedKeys, h]
  · unfold SecureProvider.getDerivedKeys at hv
    split at hv
    · exact absurd hv (by simp)
    · revert hv
      split
      · intro hv; exact absurd hv (by simp)
      · intro hv
        rename_i dk hdk
        exact ⟨dk, hdk, (Option.some.inj hv).symm⟩
  · unfold SecureConsumer.getDerivedKeys at hv
    split at hv
    · exact absurd hv (by simp)
    · revert hv
      split
      · intro hv; exact absurd hv (by simp)
      · intro hv
        rename_i dk hdk
        exact ⟨dk, hdk, (Option.some.inj hv).symm⟩

/-- Witness for C2: a fresh (unconfirmed) provider and consumer expose
nothing, and a confirmed provider/consumer expose exactly the stored
encryption/authentication pair. -/
theorem pre_confirm_secrecy_witness :
    fixtureP0.getDerivedKeys = none
  ∧ fixtureC0.getDerivedKeys = none
  ∧ (∃ dk, confirmedProviderFixture.handshakeState.derivedKeys = some dk ∧
      ({ encryptionKey := [4], authenticationKey := [5] } : ExposedKeys)
        = { encryptionKey := dk.encryptionKey
            authenticationKey := dk.authenticationKey })
  ∧ (∃ dk, confirmedConsumerFixture.handshakeState.derivedKeys = some dk ∧
      ({ encryptionKey := [4], authenticationKey := [5] } : ExposedKeys)
        = { encryptionKey := dk.encryptionKey
            authenticationKey := dk.authenticationKey }) := by
  have h0 := pre_confirm_secrecy fixtureP0 fixtureC0
  have h := pre_confirm_secrecy confirmedProviderFixture confirmedConsumerFixture
  exact ⟨h0.1 rfl, h0.2.1 rfl,
         h.2.2.1 { encryptionKey := [4], authenticationKey := [5] } rfl,
         h.2.2.2 { encryptionKey := [4], authenticationKey := [5] } rfl⟩
